import Mathlib

set_option linter.unusedVariables false

/- Verification of the Stale-Item Reminder and Update-Conversation Engine
   of the Mantis chat bot.  The definitions below are a shallow embedding
   of the Python sources: `utils/reminder_processor.py`,
   `utils/network.py`, `utils/github_update_manager.py` and
   `commands/dm_update_handler.py`.  Timestamps are modelled as seconds
   (Int); an unparseable or missing timestamp is `none`.  Remote calls are
   modelled by explicit outcome oracles; `while` loops by fuel-indexed
   recursion. -/

namespace Mantis

/- Configuration constants from config.py. -/

def STALE_ISSUE_DAYS : Int := 7

def STALE_PR_DAYS : Int := 5

def secondsPerDay : Int := 86400

/- is_stale (reminder_processor.py, lines 106-114): an item is stale when
   its last update instant lies before now minus the threshold in days;
   a missing or unparseable timestamp (modelled by `none`) counts as
   stale. -/

def is_stale (updatedAt : Option Int) (now : Int) (daysThreshold : Int) : Bool :=
  match updatedAt with
  | none => true
  | some t => decide (t < now - daysThreshold * secondsPerDay)

/- One raw tracker item, carrying every field the engine reads.  Issues
   use `assignees`; pull requests use `isDraft`, `reviewDecision` and
   `reviewRequests`.  A `none` entry in `assignees` or `reviewRequests`
   models a null node or a node without a login (e.g. a team reviewer).
   `reviewDecision` is the raw string; a missing or null decision is
   modelled by the empty string, which the source treats identically
   (both are falsy in every use). -/

structure Item where
  repository : String
  number : Nat
  title : String
  url : String
  updatedAt : Option Int
  author : Option String
  assignees : List (Option String)
  isDraft : Bool
  reviewDecision : String
  reviewRequests : List (Option String)
  deriving Repr, DecidableEq

structure Reminder where
  username : String
  reason : String
  deriving Repr, DecidableEq

/- determine_issue_reminders (reminder_processor.py, lines 134-160). -/

def determine_issue_reminders (now : Int) (issue : Item) : List Reminder :=
  if !(is_stale issue.updatedAt now STALE_ISSUE_DAYS) then []
  else if issue.assignees ≠ [] then
    issue.assignees.filterMap (fun a =>
      a.map (fun login => { username := login, reason := "assigned" }))
  else
    match issue.author with
    | some a => [{ username := a, reason := "created" }]
    | none => []

/- determine_pr_reminders (reminder_processor.py, lines 162-216). -/

def determine_pr_reminders (now : Int) (pr : Item) : List Reminder :=
  if !(is_stale pr.updatedAt now STALE_PR_DAYS) then []
  else
    let reviewer_logins := pr.reviewRequests.filterMap id
    if pr.isDraft then
      match pr.author with
      | some a => [{ username := a, reason := "draft_creator" }]
      | none => []
    else if pr.reviewDecision = "APPROVED" then
      match pr.author with
      | some a => [{ username := a, reason := "approved_creator" }]
      | none => []
    else if pr.reviewDecision = "CHANGES_REQUESTED" then
      match pr.author with
      | some a => [{ username := a, reason := "changes_requested_creator" }]
      | none => []
    else if pr.reviewDecision = "REVIEW_REQUIRED" ∨ pr.reviewDecision = "" then
      if reviewer_logins ≠ [] then
        reviewer_logins.map (fun login => { username := login, reason := "reviewer" })
      else
        match pr.author with
        | some a => [{ username := a, reason := "awaiting_review_creator" }]
        | none => []
    else []

/-- C1: for every stale pull request with an author and a valid review
decision, the reason ladder is total and exclusive: exactly one of the
four branches (draft, approved, changes-requested, review-required or no
decision) fires, the fired branch determines the output of
`determine_pr_reminders` exactly, and in the reviewer branch every named
requested reviewer — and, when the author is not among the requested
reviewers, never the author — receives reason "reviewer". -/
theorem pr_reason_ladder_total_exclusive (now : Int) (pr : Item) (a : String)
    (hstale : is_stale pr.updatedAt now STALE_PR_DAYS = true)
    (hauth : pr.author = some a)
    (hrd : pr.reviewDecision = "" ∨ pr.reviewDecision = "APPROVED" ∨
      pr.reviewDecision = "CHANGES_REQUESTED" ∨ pr.reviewDecision = "REVIEW_REQUIRED") :
    ([pr.isDraft,
      !pr.isDraft && (pr.reviewDecision == "APPROVED"),
      !pr.isDraft && (pr.reviewDecision == "CHANGES_REQUESTED"),
      !pr.isDraft && (pr.reviewDecision == "REVIEW_REQUIRED" || pr.reviewDecision == "")
     ].count true = 1)
    ∧ (pr.isDraft = true →
        determine_pr_reminders now pr = [{ username := a, reason := "draft_creator" }])
    ∧ (pr.isDraft = false → pr.reviewDecision = "APPROVED" →
        determine_pr_reminders now pr = [{ username := a, reason := "approved_creator" }])
    ∧ (pr.isDraft = false → pr.reviewDecision = "CHANGES_REQUESTED" →
        determine_pr_reminders now pr = [{ username := a, reason := "changes_requested_creator" }])
    ∧ (pr.isDraft = false →
        (pr.reviewDecision = "REVIEW_REQUIRED" ∨ pr.reviewDecision = "") →
        ((pr.reviewRequests.filterMap id ≠ [] ∧
          determine_pr_reminders now pr =
            (pr.reviewRequests.filterMap id).map
              (fun login => { username := login, reason := "reviewer" }) ∧
          (a ∉ pr.reviewRequests.filterMap id →
            ∀ r ∈ determine_pr_reminders now pr, r.username ≠ a))
         ∨ (pr.reviewRequests.filterMap id = [] ∧
          determine_pr_reminders now pr =
            [{ username := a, reason := "awaiting_review_creator" }]))) := by
  refine ⟨?_, ?_, ?_, ?_, ?_⟩
  · cases hdraft : pr.isDraft <;> rcases hrd with h | h | h | h <;> rw [h] <;> decide
  · intro hdraft
    simp [determine_pr_reminders, hstale, hdraft, hauth]
  · intro hdraft h
    simp [determine_pr_reminders, hstale, hdraft, hauth, h]
  · intro hdraft h
    simp [determine_pr_reminders, hstale, hdraft, hauth, h]
  · intro hdraft h
    have hout : determine_pr_reminders now pr =
        (if pr.reviewRequests.filterMap id ≠ [] then
          (pr.reviewRequests.filterMap id).map
            (fun login => { username := login, reason := "reviewer" })
         else [{ username := a, reason := "awaiting_review_creator" }]) := by
      rcases h with h | h <;> simp [determine_pr_reminders, hstale, hdraft, hauth, h]
    cases hrev : pr.reviewRequests.filterMap id with
    | nil =>
      right
      refine ⟨rfl, ?_⟩
      rw [hout, hrev]
      simp
    | cons r rs =>
      left
      refine ⟨by simp, ?_, ?_⟩
      · rw [hout, hrev]
        simp
      · intro hna rem hrem heq
        rw [hout, hrev] at hrem
        simp only [ne_eq, reduceCtorEq, not_false_eq_true, if_true, List.mem_map] at hrem
        rcases hrem with ⟨login, hlog, hreq⟩
        have hla : login = a := by
          have h2 := congrArg Reminder.username hreq
          simpa [heq] using h2
        exact hna (hla ▸ hlog)

/- Concrete pull request used to instantiate the ladder theorem: stale,
   non-draft, empty review decision, two requested reviewers. -/

def c1PR : Item :=
  { repository := "Mantis", number := 1, title := "t", url := "u",
    updatedAt := some 0, author := some ("alice"), assignees := [],
    isDraft := false, reviewDecision := "",
    reviewRequests := [some ("bob"), some ("carol")] }

/-- C1 witness: the ladder theorem instantiated at `c1PR` at time 10^7. -/
theorem pr_reason_ladder_witness :
    ([c1PR.isDraft,
      !c1PR.isDraft && (c1PR.reviewDecision == "APPROVED"),
      !c1PR.isDraft && (c1PR.reviewDecision == "CHANGES_REQUESTED"),
      !c1PR.isDraft && (c1PR.reviewDecision == "REVIEW_REQUIRED" || c1PR.reviewDecision == "")
     ].count true = 1)
    ∧ (c1PR.isDraft = true →
        determine_pr_reminders 10000000 c1PR = [{ username := "alice", reason := "draft_creator" }])
    ∧ (c1PR.isDraft = false → c1PR.reviewDecision = "APPROVED" →
        determine_pr_reminders 10000000 c1PR = [{ username := "alice", reason := "approved_creator" }])
    ∧ (c1PR.isDraft = false → c1PR.reviewDecision = "CHANGES_REQUESTED" →
        determine_pr_reminders 10000000 c1PR = [{ username := "alice", reason := "changes_requested_creator" }])
    ∧ (c1PR.isDraft = false →
        (c1PR.reviewDecision = "REVIEW_REQUIRED" ∨ c1PR.reviewDecision = "") →
        ((c1PR.reviewRequests.filterMap id ≠ [] ∧
          determine_pr_reminders 10000000 c1PR =
            (c1PR.reviewRequests.filterMap id).map
              (fun login => { username := login, reason := "reviewer" }) ∧
          ("alice" ∉ c1PR.reviewRequests.filterMap id →
            ∀ r ∈ determine_pr_reminders 10000000 c1PR, r.username ≠ "alice"))
         ∨ (c1PR.reviewRequests.filterMap id = [] ∧
          determine_pr_reminders 10000000 c1PR =
            [{ username := "alice", reason := "awaiting_review_creator" }]))) :=
  pr_reason_ladder_total_exclusive 10000000 c1PR ("alice") (by decide) rfl (Or.inl rfl)

/- ------------------------------------------------------------------ -/
/- Backoff executor (utils/network.py, retry_with_exponential_backoff,
   lines 6-63).  The wrapped call is an oracle from attempt number to an
   outcome; `random.uniform` draws are oracles `jitterLong` (range 0..1,
   used for 429/502/503) and `jitterShort` (range 0..0.5, used for other
   request-layer errors).  The result also records the list of sleep
   delays performed, so retry scheduling is observable. -/

inductive NetError where
  | reqErr (status : Option Nat) (msg : String)
  | otherErr (msg : String)
  deriving Repr, DecidableEq

def NetError.text : NetError → String
  | NetError.reqErr _ m => m
  | NetError.otherErr m => m

structure RetryResult (α : Type) where
  success : Bool
  result : Option α
  error : String
  delays : List ℚ
  deriving Repr, DecidableEq

def retryLoop {α : Type} (call : Nat → Except NetError α)
    (jitterLong jitterShort : Nat → ℚ) (max_retries : Nat) (base_delay : ℚ) :
    Nat → Nat → RetryResult α
  | _, 0 => { success := false, result := none, error := "Max retries exceeded", delays := [] }
  | attempt, remaining + 1 =>
    match call attempt with
    | Except.ok v => { success := true, result := some v, error := "", delays := [] }
    | Except.error e =>
      if attempt = max_retries - 1 then
        { success := false, result := none, error := e.text, delays := [] }
      else
        match e with
        | NetError.reqErr (some 401) _ =>
          { success := false, result := none,
            error := "Missing or invalid Authorization header", delays := [] }
        | NetError.reqErr (some 403) _ =>
          { success := false, result := none, error := "Invalid API key", delays := [] }
        | NetError.reqErr (some 500) _ =>
          { success := false, result := none, error := "Server configuration error", delays := [] }
        | NetError.reqErr (some s) _ =>
          if s = 429 ∨ s = 502 ∨ s = 503 then
            let d := base_delay * 2 ^ attempt + jitterLong attempt
            let r := retryLoop call jitterLong jitterShort max_retries base_delay
              (attempt + 1) remaining
            { r with delays := d :: r.delays }
          else
            let d := base_delay * (3 / 2) ^ attempt + jitterShort attempt
            let r := retryLoop call jitterLong jitterShort max_retries base_delay
              (attempt + 1) remaining
            { r with delays := d :: r.delays }
        | NetError.reqErr none _ =>
          let d := base_delay * (3 / 2) ^ attempt + jitterShort attempt
          let r := retryLoop call jitterLong jitterShort max_retries base_delay
            (attempt + 1) remaining
          { r with delays := d :: r.delays }
        | NetError.otherErr _ =>
          let d := base_delay * (3 / 2) ^ attempt
          let r := retryLoop call jitterLong jitterShort max_retries base_delay
            (attempt + 1) remaining
          { r with delays := d :: r.delays }

def retry_with_exponential_backoff {α : Type} (call : Nat → Except NetError α)
    (jitterLong jitterShort : Nat → ℚ) (max_retries : Nat) (base_delay : ℚ) :
    RetryResult α :=
  retryLoop call jitterLong jitterShort max_retries base_delay 0 max_retries

/-- C4 counterexample: a wrapped call that always fails with HTTP 500 is
neither an authentication failure nor retried: the executor returns
"Server configuration error" immediately with an empty delay list (no
sleep, a single invocation), contradicting the claim that every
non-authentication failure is placed in one of the two retry tiers. -/
theorem backoff_500_terminal_counterexample :
    retry_with_exponential_backoff
      (fun _ => (Except.error (NetError.reqErr (some 500) "boom") : Except NetError Unit))
      (fun _ => 0) (fun _ => 0) 3 1 =
    { success := false, result := none, error := "Server configuration error", delays := [] } := rfl

/-- C4 amended: the executor classifies persistent failures as follows —
401, 403 and 500 are terminal with a distinct message and are never
retried (empty delay list); 429, 502 and 503 are retried with delay
base * 2 ^ attempt plus a long jitter draw; any other request-layer
error (other status or no status) is retried with delay
base * 1.5 ^ attempt plus a short jitter draw; a non-request error is
retried with delay base * 1.5 ^ attempt and no jitter; with the default
bound of 3 the final attempt returns (false, none, lastError). -/
theorem backoff_failure_tiers (base : ℚ) (jl js : Nat → ℚ) (msg : String) :
    (retry_with_exponential_backoff
        (fun _ => (Except.error (NetError.reqErr (some 401) msg) : Except NetError Unit)) jl js 3 base
      = { success := false, result := none,
          error := "Missing or invalid Authorization header", delays := [] })
    ∧ (retry_with_exponential_backoff
        (fun _ => (Except.error (NetError.reqErr (some 403) msg) : Except NetError Unit)) jl js 3 base
      = { success := false, result := none, error := "Invalid API key", delays := [] })
    ∧ (retry_with_exponential_backoff
        (fun _ => (Except.error (NetError.reqErr (some 500) msg) : Except NetError Unit)) jl js 3 base
      = { success := false, result := none, error := "Server configuration error", delays := [] })
    ∧ (retry_with_exponential_backoff
        (fun _ => (Except.error (NetError.reqErr (some 429) msg) : Except NetError Unit)) jl js 3 base
      = { success := false, result := none, error := msg,
          delays := [base * 2 ^ 0 + jl 0, base * 2 ^ 1 + jl 1] })
    ∧ (retry_with_exponential_backoff
        (fun _ => (Except.error (NetError.reqErr (some 502) msg) : Except NetError Unit)) jl js 3 base
      = { success := false, result := none, error := msg,
          delays := [base * 2 ^ 0 + jl 0, base * 2 ^ 1 + jl 1] })
    ∧ (retry_with_exponential_backoff
        (fun _ => (Except.error (NetError.reqErr (some 503) msg) : Except NetError Unit)) jl js 3 base
      = { success := false, result := none, error := msg,
          delays := [base * 2 ^ 0 + jl 0, base * 2 ^ 1 + jl 1] })
    ∧ (retry_with_exponential_backoff
        (fun _ => (Except.error (NetError.reqErr (some 418) msg) : Except NetError Unit)) jl js 3 base
      = { success := false, result := none, error := msg,
          delays := [base * (3 / 2) ^ 0 + js 0, base * (3 / 2) ^ 1 + js 1] })
    ∧ (retry_with_exponential_backoff
        (fun _ => (Except.error (NetError.reqErr none msg) : Except NetError Unit)) jl js 3 base
      = { success := false, result := none, error := msg,
          delays := [base * (3 / 2) ^ 0 + js 0, base * (3 / 2) ^ 1 + js 1] })
    ∧ (retry_with_exponential_backoff
        (fun _ => (Except.error (NetError.otherErr msg) : Except NetError Unit)) jl js 3 base
      = { success := false, result := none, error := msg,
          delays := [base * (3 / 2) ^ 0, base * (3 / 2) ^ 1] }) :=
  ⟨rfl, rfl, rfl, rfl, rfl, rfl, rfl, rfl, rfl⟩

/- ------------------------------------------------------------------ -/
/- Update-conversation state machine (commands/dm_update_handler.py and
   utils/github_update_manager.py).  A session is the per-recipient dict
   stored in GitHubUpdateManager.active_sessions; fields absent until
   first written are modelled with their Python read defaults
   (selected_item_index: none, pending_update_content: "").  Handlers
   return the session value after the reply is processed, `none` meaning
   the session was ended (end_session).  The GitHub comment post outcome
   is the oracle `postOk`. -/

/- Character-list implementations of the Python string helpers used by
   the handlers (str.strip, str.lower, int(...)).  They are written over
   `String.data` so that concrete instances reduce inside the kernel. -/

def pyStrip (s : String) : String :=
  ⟨((s.data.dropWhile Char.isWhitespace).reverse.dropWhile Char.isWhitespace).reverse⟩

def pyLower (s : String) : String :=
  ⟨s.data.map Char.toLower⟩

def parseDigits : List Char → Nat → Option Nat
  | [], acc => some acc
  | c :: rest, acc =>
    if c.isDigit then parseDigits rest (acc * 10 + (c.toNat - 48)) else none

/- int(text) for a stripped decimal literal with an optional sign;
   anything else raises ValueError, modelled by `none`. -/

def pyToInt (s : String) : Option Int :=
  match s.data with
  | [] => none
  | c :: rest =>
    if c = '-' then
      match rest with
      | [] => none
      | _ => (parseDigits rest 0).map (fun n => -(n : Int))
    else if c = '+' then
      match rest with
      | [] => none
      | _ => (parseDigits rest 0).map (fun n => (n : Int))
    else (parseDigits (c :: rest) 0).map (fun n => (n : Int))

structure UpdateItem where
  type : String
  repository : String
  number : Nat
  title : String
  url : String
  deriving Repr, DecidableEq

structure Session where
  github_username : String
  update_items : List UpdateItem
  stage : String
  updated_items : List Nat
  selected_item_index : Option Nat
  pending_update_content : String
  deriving Repr, DecidableEq

/- create_update_session (github_update_manager.py, lines 36-89). -/

def create_update_session (github_username : String) (issues prs : List Item) : Session :=
  { github_username := github_username
    update_items :=
      issues.map (fun i => { type := "issue", repository := i.repository,
                             number := i.number, title := i.title, url := i.url }) ++
      prs.map (fun p => { type := "pr", repository := p.repository,
                          number := p.number, title := p.title, url := p.url })
    stage := "awaiting_initial_response"
    updated_items := []
    selected_item_index := none
    pending_update_content := "" }

/- The remaining-items computation shared by the handlers:
   [i for i, item in enumerate(update_items) if i not in updated_items]. -/

def remainingIndices (items : List UpdateItem) (updated : List Nat) : List Nat :=
  (List.range items.length).filter (fun i => !(updated.contains i))

/- post_update_to_github (dm_update_handler.py, lines 263-316). -/

def post_update_to_github (postOk : Bool) (s : Session) (item_index : Nat)
    (update_content : String) : Option Session :=
  if s.update_items.length ≤ item_index then none
  else if postOk then
    let updated := s.updated_items ++ [item_index]
    let remaining := remainingIndices s.update_items updated
    if remaining ≠ [] then
      some { s with stage := "awaiting_next_update_or_done", updated_items := updated }
    else none
  else some s

/- handle_update_content (dm_update_handler.py, lines 131-189). -/

def handle_update_content (postOk : Bool) (content : String) (s : Session) : Option Session :=
  match s.selected_item_index with
  | none => none
  | some selected_index =>
    if s.update_items.length ≤ selected_index then none
    else
      let update_content := pyStrip content
      if update_content = "" then some s
      else if postOk then
        let updated := s.updated_items ++ [selected_index]
        let remaining := remainingIndices s.update_items updated
        if remaining ≠ [] then
          some { s with stage := "awaiting_continue_choice", updated_items := updated }
        else none
      else some s

/- handle_initial_response (dm_update_handler.py, lines 67-93). -/

def handle_initial_response (postOk : Bool) (content : String) (s : Session) : Option Session :=
  if s.update_items = [] then none
  else
    let update_content := pyStrip content
    if update_content = "" then some s
    else if s.update_items.length = 1 then
      post_update_to_github postOk s 0 update_content
    else
      some { s with stage := "awaiting_item_selection_for_update",
                    pending_update_content := update_content }

/- handle_item_selection (dm_update_handler.py, lines 96-128). -/

def handle_item_selection (content : String) (s : Session) : Option Session :=
  match pyToInt (pyStrip content) with
  | some selection =>
    if 1 ≤ selection ∧ selection ≤ (s.update_items.length : Int) then
      some { s with stage := "awaiting_update_content",
                    selected_item_index := some (selection - 1).toNat }
    else some s
  | none => some s

/- send_item_selection_prompt (dm_update_handler.py, lines 217-237). -/

def send_item_selection_prompt (s : Session) : Option Session :=
  if remainingIndices s.update_items s.updated_items = [] then none
  else some { s with stage := "awaiting_item_selection" }

/- handle_continue_choice (dm_update_handler.py, lines 192-214). -/

def handle_continue_choice (content : String) (s : Session) : Option Session :=
  let user_input := pyStrip (pyLower content)
  if ["yes", "y", "continue", "more", "next"].contains user_input then
    send_item_selection_prompt s
  else if ["no", "n", "done", "finish", "stop"].contains user_input then none
  else some s

/- handle_item_selection_for_update (dm_update_handler.py, lines 239-260). -/

def handle_item_selection_for_update (postOk : Bool) (content : String)
    (s : Session) : Option Session :=
  match pyToInt (pyStrip content) with
  | some selection =>
    if 1 ≤ selection ∧ selection ≤ (s.update_items.length : Int) then
      post_update_to_github postOk s (selection - 1).toNat s.pending_update_content
    else some s
  | none => some s

/- handle_next_update_or_done (dm_update_handler.py, lines 335-377). -/

def handle_next_update_or_done (postOk : Bool) (content : String)
    (s : Session) : Option Session :=
  let user_input := pyLower (pyStrip content)
  if ["done", "finish", "stop", "no", "finished"].contains user_input then none
  else
    let update_content := pyStrip content
    if update_content = "" then some s
    else
      match remainingIndices s.update_items s.updated_items with
      | [] => none
      | [i] => post_update_to_github postOk s i update_content
      | _ :: _ :: _ =>
        some { s with stage := "awaiting_item_selection_for_update",
                      pending_update_content := update_content }

/- handle_update_conversation (dm_update_handler.py, lines 44-64):
   dispatch on the stage string; an unknown stage resets the session. -/

def handle_update_conversation (postOk : Bool) (content : String)
    (s : Session) : Option Session :=
  if s.stage = "awaiting_initial_response" then handle_initial_response postOk content s
  else if s.stage = "awaiting_item_selection" then handle_item_selection content s
  else if s.stage = "awaiting_item_selection_for_update" then
    handle_item_selection_for_update postOk content s
  else if s.stage = "awaiting_update_content" then handle_update_content postOk content s
  else if s.stage = "awaiting_continue_choice" then handle_continue_choice content s
  else if s.stage = "awaiting_next_update_or_done" then
    handle_next_update_or_done postOk content s
  else none

/- Concrete sessions for the state-machine theorems. -/

def cItemA : UpdateItem :=
  { type := "issue", repository := "Mantis", number := 10, title := "A", url := "ua" }

def cItemB : UpdateItem :=
  { type := "issue", repository := "Mantis", number := 20, title := "B", url := "ub" }

def cPendingSession : Session :=
  { github_username := "alice", update_items := [cItemA, cItemB],
    stage := "awaiting_item_selection_for_update", updated_items := [],
    selected_item_index := none, pending_update_content := "made progress" }

def cSelectedSession : Session :=
  { github_username := "alice", update_items := [cItemA, cItemB],
    stage := "awaiting_update_content", updated_items := [],
    selected_item_index := some 0, pending_update_content := "" }

/-- C3 counterexample: in the selection-for-update path a successful post
with one unresolved item left moves the session to
"awaiting_next_update_or_done", not to "awaiting_continue_choice" as the
claim states for every posting path. -/
theorem posting_stage_counterexample :
    handle_update_conversation true ("1") cPendingSession =
      some { cPendingSession with stage := "awaiting_next_update_or_done",
                                  updated_items := [0] }
    ∧ (handle_update_conversation true ("1") cPendingSession).map Session.stage ≠
      some ("awaiting_continue_choice") := by
  constructor
  · decide
  · decide

/-- C3 amended: a successful comment post marks the selected index
resolved and, when unresolved items remain, moves the session to
"awaiting_continue_choice" on the awaiting_update_content path
(handle_update_content) but to "awaiting_next_update_or_done" on the
post_update_to_github paths (initial single-item reply,
selection-for-update, next-update-or-done); in both cases the session is
destroyed when no unresolved item remains. -/
theorem posting_success_transitions (s : Session) (idx : Nat) (content : String)
    (hidx : idx < s.update_items.length)
    (hsel : s.selected_item_index = some idx)
    (hc : pyStrip content ≠ "") :
    (post_update_to_github true s idx content =
      (if remainingIndices s.update_items (s.updated_items ++ [idx]) = [] then none
       else some { s with stage := "awaiting_next_update_or_done",
                          updated_items := s.updated_items ++ [idx] }))
    ∧ (handle_update_content true content s =
      (if remainingIndices s.update_items (s.updated_items ++ [idx]) = [] then none
       else some { s with stage := "awaiting_continue_choice",
                          updated_items := s.updated_items ++ [idx] })) := by
  have hlen : ¬ (s.update_items.length ≤ idx) := by omega
  constructor
  · by_cases hrem : remainingIndices s.update_items (s.updated_items ++ [idx]) = [] <;>
      simp [post_update_to_github, hlen, hrem]
  · by_cases hrem : remainingIndices s.update_items (s.updated_items ++ [idx]) = [] <;>
      simp [handle_update_content, hsel, hlen, hc, hrem]

/-- C3 witness: the amended transition theorem instantiated at a concrete
two-item session with item 0 selected. -/
theorem posting_success_transitions_witness :
    (post_update_to_github true cSelectedSession 0 ("did work") =
      (if remainingIndices cSelectedSession.update_items
          (cSelectedSession.updated_items ++ [0]) = [] then none
       else some { cSelectedSession with
                     stage := "awaiting_next_update_or_done",
                     updated_items := cSelectedSession.updated_items ++ [0] }))
    ∧ (handle_update_content true ("did work") cSelectedSession =
      (if remainingIndices cSelectedSession.update_items
          (cSelectedSession.updated_items ++ [0]) = [] then none
       else some { cSelectedSession with
                     stage := "awaiting_continue_choice",
                     updated_items := cSelectedSession.updated_items ++ [0] })) :=
  posting_success_transitions cSelectedSession 0 ("did work") (by decide) rfl (by decide)

/-- C7: when the comment post fails, both posting paths leave the whole
session value — stage, pending content, selected index and resolved
indices — unchanged, so a resubmitted identical reply retries without
re-prompting for selection. -/
theorem posting_failure_preserves_session (s : Session) (idx : Nat) (content : String)
    (hidx : idx < s.update_items.length)
    (hsel : s.selected_item_index = some idx)
    (hc : pyStrip content ≠ "") :
    post_update_to_github false s idx content = some s
    ∧ handle_update_content false content s = some s := by
  have hlen : ¬ (s.update_items.length ≤ idx) := by omega
  constructor
  · simp [post_update_to_github, hlen]
  · simp [handle_update_content, hsel, hlen, hc]

/-- C7 witness: the failure-frame theorem instantiated at a concrete
session with item 0 selected. -/
theorem posting_failure_preserves_session_witness :
    post_update_to_github false cSelectedSession 0 ("did work") = some cSelectedSession
    ∧ handle_update_content false ("did work") cSelectedSession = some cSelectedSession :=
  posting_failure_preserves_session cSelectedSession 0 ("did work") (by decide) rfl (by decide)

/- ------------------------------------------------------------------ -/
/- Inbound DM routing (commands/dm_update_handler.py, on_dm_message,
   lines 12-41).  The source consults only the channel type, the
   author-bot flag, the presence of the update manager and the presence
   of an active session for the author; the reply target of the message
   (modelled by `repliesToLatestEngineMessage`, message.reference in the
   platform API) is never read. -/

structure DmMessage where
  isDmChannel : Bool
  authorIsBot : Bool
  authorId : Nat
  content : String
  repliesToLatestEngineMessage : Bool
  deriving Repr, DecidableEq

def routes_to_session (managerPresent : Bool) (get_session : Nat → Option Session)
    (m : DmMessage) : Bool :=
  m.isDmChannel && !m.authorIsBot && managerPresent && (get_session m.authorId).isSome

def c9Store : Nat → Option Session :=
  fun i => if i = 42 then some cPendingSession else none

/-- C9 counterexample: a DM from a recipient with an active session that
is not a reply to the engine's most recent message is still routed into
the state machine, contradicting the claim that only direct replies to
the latest engine message are consumed. -/
theorem reply_routing_counterexample :
    routes_to_session true c9Store
      { isDmChannel := true, authorIsBot := false, authorId := 42,
        content := "hello", repliesToLatestEngineMessage := false } = true := rfl

/-- C9 amended: a DM is routed into the author's session exactly when it
is a direct message from a non-bot author with an active session while
the update manager is installed; the reply-target of the message is
ignored entirely. -/
theorem reply_routing_ignores_reply_target (mgr : Bool)
    (store : Nat → Option Session) (m : DmMessage) :
    (routes_to_session mgr store m = true ↔
      m.isDmChannel = true ∧ m.authorIsBot = false ∧ mgr = true ∧
        (store m.authorId).isSome = true)
    ∧ (∀ b : Bool,
        routes_to_session mgr store { m with repliesToLatestEngineMessage := b } =
          routes_to_session mgr store m) := by
  constructor
  · simp [routes_to_session, Bool.and_eq_true, and_assoc]
  · intro b
    rfl

/- ------------------------------------------------------------------ -/
/- Reminder aggregation (process_reminders, reminder_processor.py,
   lines 666-778).  all_user_reminders is the per-user accumulator; it is
   modelled as a total map from username to the two per-user item lists
   (a Python dict entry that was never created reads as the empty pair).
   Appending an item dict copy with its reminder_reason gives a
   TaggedItem. -/

structure TaggedItem where
  item : Item
  reminder_reason : String
  deriving Repr, DecidableEq

structure UserReminders where
  issues : List TaggedItem
  prs : List TaggedItem
  deriving Repr, DecidableEq

def Users : Type := String → UserReminders

def emptyUsers : Users := fun _ => { issues := [], prs := [] }

def addIssueReminder (m : Users) (u : String) (t : TaggedItem) : Users :=
  fun v => if v = u then { m v with issues := (m v).issues ++ [t] } else m v

def addPrReminder (m : Users) (u : String) (t : TaggedItem) : Users :=
  fun v => if v = u then { m v with prs := (m v).prs ++ [t] } else m v

/- The per-page issue loop (lines 696-711): set the repository on each
   non-null node, classify it, and append a tagged copy to every
   reminded user. -/

def collectIssuePage (now : Int) (repo_name : String) (acc : Users)
    (nodes : List (Option Item)) : Users :=
  nodes.foldl (fun acc0 node =>
    match node with
    | none => acc0
    | some issue0 =>
      let issue := { issue0 with repository := repo_name }
      (determine_issue_reminders now issue).foldl
        (fun acc1 r =>
          addIssueReminder acc1 r.username { item := issue, reminder_reason := r.reason })
        acc0) acc

/- The per-page pull-request loop (lines 753-768). -/

def collectPrPage (now : Int) (repo_name : String) (acc : Users)
    (nodes : List (Option Item)) : Users :=
  nodes.foldl (fun acc0 node =>
    match node with
    | none => acc0
    | some pr0 =>
      let pr := { pr0 with repository := repo_name }
      (determine_pr_reminders now pr).foldl
        (fun acc1 r =>
          addPrReminder acc1 r.username { item := pr, reminder_reason := r.reason })
        acc0) acc

/- ------------------------------------------------------------------ -/
/- Paginated query walker (process_reminders, lines 667-722 for issues
   and 724-778 for pull requests; the two loops are the same code up to
   entity kind).  A fetch outcome is either a raised exception
   (Except.error, after make_github_api_request exhausted its retries) or
   a GraphQL response; the opaque cursor is modelled by the number of
   successfully consumed pages, which indexes the fetch oracle.  The
   `while has_next_page` loop runs on fuel. -/

structure GqlPage where
  nodes : List (Option Item)
  hasNextPage : Bool
  deriving Repr, DecidableEq

structure GqlResp where
  hasErrors : Bool
  repo : Option GqlPage
  deriving Repr, DecidableEq

structure WalkSt where
  cursor : Nat
  hasNext : Bool
  acc : Users

def initialWalkSt (acc : Users) : WalkSt :=
  { cursor := 0, hasNext := true, acc := acc }

/- The early-exit check (lines 717-721 and 774-778): break when the last
   node of the page has a non-empty, parseable updatedAt that is not
   stale at twice the threshold.  (A null trailing node would raise an
   AttributeError in the source; the claims under verification never
   reach that case.) -/

def pageEarlyExit (now : Int) (daysThresholdDouble : Int)
    (nodes : List (Option Item)) : Bool :=
  match nodes.getLast? with
  | some (some lastItem) =>
    match lastItem.updatedAt with
    | some t => !(is_stale (some t) now daysThresholdDouble)
    | none => false
  | _ => false

/- One iteration of the while-loop body.  On a raised fetch exception, on
   GraphQL errors, and on a missing repository object the source executes
   `continue` with cursor and has_next_page untouched, so the state is
   returned unchanged.  On a consumed page the cursor advances, the page
   is collected, and the loop continues unless the server reports no next
   page or the early-exit check fires. -/

def walkStepWith (now : Int) (daysThresholdDouble : Int)
    (collectPage : Users → List (Option Item) → Users)
    (fetch : Nat → Except String GqlResp) (st : WalkSt) : WalkSt :=
  match fetch st.cursor with
  | Except.error _ => st
  | Except.ok resp =>
    if resp.hasErrors then st
    else
      match resp.repo with
      | none => st
      | some page =>
        let newAcc := collectPage st.acc page.nodes
        if pageEarlyExit now daysThresholdDouble page.nodes then
          { cursor := st.cursor + 1, hasNext := false, acc := newAcc }
        else
          { cursor := st.cursor + 1, hasNext := page.hasNextPage, acc := newAcc }

def issuesWalkStep (now : Int) (repo_name : String)
    (fetch : Nat → Except String GqlResp) : WalkSt → WalkSt :=
  walkStepWith now (STALE_ISSUE_DAYS * 2) (collectIssuePage now repo_name) fetch

def prsWalkStep (now : Int) (repo_name : String)
    (fetch : Nat → Except String GqlResp) : WalkSt → WalkSt :=
  walkStepWith now (STALE_PR_DAYS * 2) (collectPrPage now repo_name) fetch

/- Fuel-indexed unfolding of `while has_next_page`.  `walkLog` records
   the page index passed to each fetch call; `walkRun` returns the final
   state. -/

def walkLog (step : WalkSt → WalkSt) : Nat → WalkSt → List Nat
  | 0, _ => []
  | fuel + 1, st =>
    if st.hasNext then st.cursor :: walkLog step fuel (step st) else []

def walkRun (step : WalkSt → WalkSt) : Nat → WalkSt → WalkSt
  | 0, st => st
  | fuel + 1, st => if st.hasNext then walkRun step fuel (step st) else st

theorem walkLog_of_fixed (step : WalkSt → WalkSt) (hstep : ∀ st, step st = st) :
    ∀ fuel (st : WalkSt), st.hasNext = true →
      walkLog step fuel st = List.replicate fuel st.cursor ∧ walkRun step fuel st = st := by
  intro fuel
  induction fuel with
  | zero => intro st _; exact ⟨rfl, rfl⟩
  | succ n ih =>
    intro st hn
    have h := ih st hn
    constructor
    · rw [walkLog, if_pos hn, hstep, h.1, List.replicate_succ]
    · rw [walkRun, if_pos hn, hstep, h.2]

/-- C2: evidence of the divergence — when the page fetch for a
(repository, kind) walk raises (all its retries exhausted), the source
executes `continue` with cursor and has_next_page unchanged, so the walk
is never aborted: for any amount of fuel it refetches page 0 over and
over (the fetch log is fuel copies of page index 0) and the loop state
never changes, for the issue walk and the pull-request walk alike.
Sibling repository/kind walks, which run only after this loop exits,
are consequently never reached while the failure persists. -/
theorem fetch_failure_never_aborts_walk (now : Int) (repo_name msg : String)
    (acc : Users) (fuel : Nat) :
    walkLog (issuesWalkStep now repo_name (fun _ => Except.error msg)) fuel (initialWalkSt acc)
      = List.replicate fuel 0
    ∧ walkRun (issuesWalkStep now repo_name (fun _ => Except.error msg)) fuel (initialWalkSt acc)
      = initialWalkSt acc
    ∧ walkLog (prsWalkStep now repo_name (fun _ => Except.error msg)) fuel (initialWalkSt acc)
      = List.replicate fuel 0
    ∧ walkRun (prsWalkStep now repo_name (fun _ => Except.error msg)) fuel (initialWalkSt acc)
      = initialWalkSt acc := by
  have h1 := walkLog_of_fixed (issuesWalkStep now repo_name (fun _ => Except.error msg))
    (fun st => rfl) fuel (initialWalkSt acc) rfl
  have h2 := walkLog_of_fixed (prsWalkStep now repo_name (fun _ => Except.error msg))
    (fun st => rfl) fuel (initialWalkSt acc) rfl
  exact ⟨h1.1, h1.2, h2.1, h2.2⟩

theorem walkStepWith_cursor_le (now dd : Int)
    (cp : Users → List (Option Item) → Users)
    (fetch : Nat → Except String GqlResp) (st : WalkSt) :
    (walkStepWith now dd cp fetch st).cursor ≤ st.cursor + 1 := by
  unfold walkStepWith
  cases hf : fetch st.cursor with
  | error e => simp
  | ok resp =>
    by_cases he : resp.hasErrors = true
    · simp [he]
    · cases hr : resp.repo with
      | none => simp [he, hr]
      | some page =>
        by_cases hx : pageEarlyExit now dd page.nodes = true <;> simp [he, hr, hx]

theorem walkStepWith_stops (now dd : Int)
    (cp : Users → List (Option Item) → Users)
    (fetch : Nat → Except String GqlResp) (k : Nat)
    (page : GqlPage) (lastItem : Item) (t : Int)
    (hfetch : fetch k = Except.ok { hasErrors := false, repo := some page })
    (hlast : page.nodes.getLast? = some (some lastItem))
    (ht : lastItem.updatedAt = some t)
    (hfresh : now - dd * secondsPerDay ≤ t) :
    ∀ st : WalkSt, st.cursor = k → (walkStepWith now dd cp fetch st).hasNext = false := by
  intro st hk
  have hstale : is_stale (some t) now dd = false := by
    simp only [is_stale]
    rw [decide_eq_false_iff_not]
    simp only [secondsPerDay] at hfresh ⊢
    omega
  have hx : pageEarlyExit now dd page.nodes = true := by
    simp [pageEarlyExit, hlast, ht, hstale]
  unfold walkStepWith
  rw [hk, hfetch]
  simp [hx]

theorem walkLog_nil_of_stopped (step : WalkSt → WalkSt) (fuel : Nat) (st : WalkSt)
    (h : st.hasNext = false) : walkLog step fuel st = [] := by
  cases fuel with
  | zero => rfl
  | succ n => rw [walkLog, if_neg (by simp [h])]

theorem walkLog_all_le (step : WalkSt → WalkSt) (k : Nat)
    (hcur : ∀ st, (step st).cursor ≤ st.cursor + 1)
    (hstop : ∀ st, st.cursor = k → (step st).hasNext = false) :
    ∀ fuel (st : WalkSt), st.cursor ≤ k →
      (walkLog step fuel st).all (fun j => decide (j ≤ k)) = true := by
  intro fuel
  induction fuel with
  | zero => intro st _; rfl
  | succ n ih =>
    intro st hle
    by_cases hn : st.hasNext = true
    · rw [walkLog, if_pos hn, List.all_cons]
      simp only [Bool.and_eq_true, decide_eq_true_eq]
      refine ⟨hle, ?_⟩
      rcases Nat.lt_or_ge st.cursor k with hlt | hge
      · exact ih (step st) (by have := hcur st; omega)
      · have hnx := hstop st (Nat.le_antisymm hle hge)
        rw [walkLog_nil_of_stopped step n (step st) hnx]
        rfl
    · rw [walkLog, if_neg hn]
      rfl

/-- C8: pagination early exit — if the fetch oracle answers page k with a
clean response whose last (oldest) item has a parseable updatedAt newer
than twice the staleness threshold for the entity kind, then every page
index the walk ever fetches is at most k, for the issue walk (threshold
2 x STALE_ISSUE_DAYS) and the pull-request walk (2 x STALE_PR_DAYS)
respectively. -/
theorem pagination_early_exit (now : Int) (repo_name : String)
    (fetch : Nat → Except String GqlResp) (k fuel : Nat) (acc : Users)
    (page : GqlPage) (lastItem : Item) (t : Int)
    (hfetch : fetch k = Except.ok { hasErrors := false, repo := some page })
    (hlast : page.nodes.getLast? = some (some lastItem))
    (ht : lastItem.updatedAt = some t) :
    (now - STALE_ISSUE_DAYS * 2 * secondsPerDay ≤ t →
      (walkLog (issuesWalkStep now repo_name fetch) fuel (initialWalkSt acc)).all
        (fun j => decide (j ≤ k)) = true)
    ∧ (now - STALE_PR_DAYS * 2 * secondsPerDay ≤ t →
      (walkLog (prsWalkStep now repo_name fetch) fuel (initialWalkSt acc)).all
        (fun j => decide (j ≤ k)) = true) := by
  constructor
  · intro hfresh
    exact walkLog_all_le (issuesWalkStep now repo_name fetch) k
      (fun st => walkStepWith_cursor_le now (STALE_ISSUE_DAYS * 2)
        (collectIssuePage now repo_name) fetch st)
      (walkStepWith_stops now (STALE_ISSUE_DAYS * 2) (collectIssuePage now repo_name)
        fetch k page lastItem t hfetch hlast ht hfresh)
      fuel (initialWalkSt acc) (Nat.zero_le k)
  · intro hfresh
    exact walkLog_all_le (prsWalkStep now repo_name fetch) k
      (fun st => walkStepWith_cursor_le now (STALE_PR_DAYS * 2)
        (collectPrPage now repo_name) fetch st)
      (walkStepWith_stops now (STALE_PR_DAYS * 2) (collectPrPage now repo_name)
        fetch k page lastItem t hfetch hlast ht hfresh)
      fuel (initialWalkSt acc) (Nat.zero_le k)

/- Concrete early-exit scenario: every page holds one fresh item and
   claims a next page, so only page 0 is ever fetched. -/

def c8Item : Item :=
  { repository := "", number := 1, title := "x", url := "ux",
    updatedAt := some 9999999, author := some ("alice"), assignees := [],
    isDraft := false, reviewDecision := "", reviewRequests := [] }

def c8Fetch : Nat → Except String GqlResp :=
  fun _ => Except.ok
    { hasErrors := false, repo := some { nodes := [some c8Item], hasNextPage := true } }

/-- C8 witness: the early-exit theorem instantiated at the concrete fetch
oracle `c8Fetch`, page 0, fuel 5 and time 10^7, for both entity kinds. -/
theorem pagination_early_exit_witness :
    ((walkLog (issuesWalkStep 10000000 ("Mantis") c8Fetch) 5 (initialWalkSt emptyUsers)).all
      (fun j => decide (j ≤ 0)) = true)
    ∧ ((walkLog (prsWalkStep 10000000 ("Mantis") c8Fetch) 5 (initialWalkSt emptyUsers)).all
      (fun j => decide (j ≤ 0)) = true) :=
  ⟨(pagination_early_exit 10000000 ("Mantis") c8Fetch 0 5 emptyUsers
      { nodes := [some c8Item], hasNextPage := true } c8Item 9999999 rfl rfl rfl).1
    (by decide),
   (pagination_early_exit 10000000 ("Mantis") c8Fetch 0 5 emptyUsers
      { nodes := [some c8Item], hasNextPage := true } c8Item 9999999 rfl rfl rfl).2
    (by decide)⟩

/- ------------------------------------------------------------------ -/
/- Ordering of the per-recipient bundles (claim C6).  The source issues
   one walk per repository per kind, in REMINDER_REPOS order
   (lines 667 and 724), accumulating into the same all_user_reminders. -/

def issuesPhase (now : Int) (repos : List (String × (Nat → Except String GqlResp)))
    (fuel : Nat) (acc : Users) : Users :=
  repos.foldl
    (fun acc0 p => (walkRun (issuesWalkStep now p.1 p.2) fuel (initialWalkSt acc0)).acc) acc

def prsPhase (now : Int) (repos : List (String × (Nat → Except String GqlResp)))
    (fuel : Nat) (acc : Users) : Users :=
  repos.foldl
    (fun acc0 p => (walkRun (prsWalkStep now p.1 p.2) fuel (initialWalkSt acc0)).acc) acc

/- Sorted-by-updatedAt-descending, the order the claim asserts.  Two
   parseable instants compare by ≥; a missing instant is unconstrained. -/

def optGe (a b : Option Int) : Bool :=
  match a, b with
  | some x, some y => decide (y ≤ x)
  | _, _ => true

def SortedDescBy {α : Type} (key : α → Option Int) (l : List α) : Prop :=
  List.Pairwise (fun x y => optGe (key x) (key y) = true) l

/- Per-user contribution of one node stream: the tagged copies a fixed
   user u receives from the page loop, in traversal order. -/

def tagFilter (u : String) (it : Item) (rs : List Reminder) : List TaggedItem :=
  rs.filterMap (fun r =>
    if r.username = u then some { item := it, reminder_reason := r.reason } else none)

def userIssueContrib (now : Int) (repo_name u : String) :
    List (Option Item) → List TaggedItem
  | [] => []
  | none :: rest => userIssueContrib now repo_name u rest
  | some issue0 :: rest =>
    let issue := { issue0 with repository := repo_name }
    tagFilter u issue (determine_issue_reminders now issue) ++
      userIssueContrib now repo_name u rest

def userPrContrib (now : Int) (repo_name u : String) :
    List (Option Item) → List TaggedItem
  | [] => []
  | none :: rest => userPrContrib now repo_name u rest
  | some pr0 :: rest =>
    let pr := { pr0 with repository := repo_name }
    tagFilter u pr (determine_pr_reminders now pr) ++
      userPrContrib now repo_name u rest

theorem addIssue_foldl_lookup (u : String) (it : Item) :
    ∀ (rs : List Reminder) (acc : Users),
      (rs.foldl (fun acc1 r =>
        addIssueReminder acc1 r.username { item := it, reminder_reason := r.reason }) acc) u =
      { issues := (acc u).issues ++ tagFilter u it rs, prs := (acc u).prs } := by
  intro rs
  induction rs with
  | nil => intro acc; simp [tagFilter]
  | cons r rest ih =>
    intro acc
    rw [List.foldl_cons, ih]
    by_cases hu : r.username = u
    · simp [addIssueReminder, tagFilter, hu, List.filterMap_cons]
    · have hu2 : ¬ (u = r.username) := fun h => hu h.symm
      simp [addIssueReminder, tagFilter, hu, hu2, List.filterMap_cons]

theorem addPr_foldl_lookup (u : String) (it : Item) :
    ∀ (rs : List Reminder) (acc : Users),
      (rs.foldl (fun acc1 r =>
        addPrReminder acc1 r.username { item := it, reminder_reason := r.reason }) acc) u =
      { issues := (acc u).issues, prs := (acc u).prs ++ tagFilter u it rs } := by
  intro rs
  induction rs with
  | nil => intro acc; simp [tagFilter]
  | cons r rest ih =>
    intro acc
    rw [List.foldl_cons, ih]
    by_cases hu : r.username = u
    · simp [addPrReminder, tagFilter, hu, List.filterMap_cons]
    · have hu2 : ¬ (u = r.username) := fun h => hu h.symm
      simp [addPrReminder, tagFilter, hu, hu2, List.filterMap_cons]

theorem collectIssuePage_lookup (now : Int) (rn u : String) :
    ∀ (nodes : List (Option Item)) (acc : Users),
      (collectIssuePage now rn acc nodes) u =
        { issues := (acc u).issues ++ userIssueContrib now rn u nodes,
          prs := (acc u).prs } := by
  intro nodes
  induction nodes with
  | nil => intro acc; simp [collectIssuePage, userIssueContrib]
  | cons node rest ih =>
    intro acc
    cases node with
    | none =>
      have hstep : collectIssuePage now rn acc (none :: rest) =
          collectIssuePage now rn acc rest := rfl
      rw [hstep, ih, userIssueContrib]
    | some it =>
      have hstep : collectIssuePage now rn acc (some it :: rest) =
          collectIssuePage now rn
            ((determine_issue_reminders now { it with repository := rn }).foldl
              (fun acc1 r => addIssueReminder acc1 r.username
                { item := { it with repository := rn }, reminder_reason := r.reason }) acc)
            rest := rfl
      rw [hstep, ih, addIssue_foldl_lookup, userIssueContrib]
      simp [List.append_assoc]

theorem collectPrPage_lookup (now : Int) (rn u : String) :
    ∀ (nodes : List (Option Item)) (acc : Users),
      (collectPrPage now rn acc nodes) u =
        { issues := (acc u).issues,
          prs := (acc u).prs ++ userPrContrib now rn u nodes } := by
  intro nodes
  induction nodes with
  | nil => intro acc; simp [collectPrPage, userPrContrib]
  | cons node rest ih =>
    intro acc
    cases node with
    | none =>
      have hstep : collectPrPage now rn acc (none :: rest) =
          collectPrPage now rn acc rest := rfl
      rw [hstep, ih, userPrContrib]
    | some it =>
      have hstep : collectPrPage now rn acc (some it :: rest) =
          collectPrPage now rn
            ((determine_pr_reminders now { it with repository := rn }).foldl
              (fun acc1 r => addPrReminder acc1 r.username
                { item := { it with repository := rn }, reminder_reason := r.reason }) acc)
            rest := rfl
      rw [hstep, ih, addPr_foldl_lookup, userPrContrib]
      simp [List.append_assoc]

theorem optGe_refl (a : Option Int) : optGe a a = true := by
  cases a <;> simp [optGe]

theorem tagFilter_mem (u : String) (it : Item) (rs : List Reminder) :
    ∀ x ∈ tagFilter u it rs, x.item = it := by
  intro x hx
  rcases List.mem_filterMap.mp hx with ⟨r, _, hr⟩
  by_cases hu : r.username = u
  · simp [hu] at hr
    rw [← hr]
  · simp [hu] at hr

theorem userIssueContrib_mem_key (now : Int) (rn u : String) :
    ∀ nodes : List (Option Item), ∀ y ∈ userIssueContrib now rn u nodes,
      ∃ z ∈ nodes.filterMap id, y.item.updatedAt = z.updatedAt := by
  intro nodes
  induction nodes with
  | nil => intro y hy; simp [userIssueContrib] at hy
  | cons node rest ih =>
    cases node with
    | none =>
      intro y hy
      rcases ih y hy with ⟨z, hz, hk⟩
      exact ⟨z, by simpa using hz, hk⟩
    | some it =>
      intro y hy
      rcases List.mem_append.mp hy with hy1 | hy2
      · refine ⟨it, by simp, ?_⟩
        rw [tagFilter_mem u _ _ y hy1]
      · rcases ih y hy2 with ⟨z, hz, hk⟩
        exact ⟨z, by simp [hz], hk⟩

theorem userPrContrib_mem_key (now : Int) (rn u : String) :
    ∀ nodes : List (Option Item), ∀ y ∈ userPrContrib now rn u nodes,
      ∃ z ∈ nodes.filterMap id, y.item.updatedAt = z.updatedAt := by
  intro nodes
  induction nodes with
  | nil => intro y hy; simp [userPrContrib] at hy
  | cons node rest ih =>
    cases node with
    | none =>
      intro y hy
      rcases ih y hy with ⟨z, hz, hk⟩
      exact ⟨z, by simpa using hz, hk⟩
    | some it =>
      intro y hy
      rcases List.mem_append.mp hy with hy1 | hy2
      · refine ⟨it, by simp, ?_⟩
        rw [tagFilter_mem u _ _ y hy1]
      · rcases ih y hy2 with ⟨z, hz, hk⟩
        exact ⟨z, by simp [hz], hk⟩

theorem userIssueContrib_sorted (now : Int) (rn u : String) :
    ∀ nodes : List (Option Item),
      List.Pairwise (fun x y : Item => optGe x.updatedAt y.updatedAt = true)
        (nodes.filterMap id) →
      SortedDescBy (fun t => t.item.updatedAt) (userIssueContrib now rn u nodes) := by
  intro nodes
  induction nodes with
  | nil => intro _; exact List.Pairwise.nil
  | cons node rest ih =>
    cases node with
    | none =>
      intro h
      exact ih (by simpa using h)
    | some it =>
      intro h
      have h' : List.Pairwise (fun x y : Item => optGe x.updatedAt y.updatedAt = true)
          (it :: rest.filterMap id) := by simpa using h
      rcases List.pairwise_cons.mp h' with ⟨hhead, htail⟩
      rw [userIssueContrib]
      apply List.pairwise_append.mpr
      refine ⟨?_, ih htail, ?_⟩
      · apply List.pairwise_of_forall_mem_list
        intro x hx y hy
        show optGe x.item.updatedAt y.item.updatedAt = true
        rw [tagFilter_mem u _ _ x hx, tagFilter_mem u _ _ y hy]
        exact optGe_refl _
      · intro x hx y hy
        show optGe x.item.updatedAt y.item.updatedAt = true
        rcases userIssueContrib_mem_key now rn u rest y hy with ⟨z, hz, hk⟩
        rw [tagFilter_mem u _ _ x hx, hk]
        exact hhead z hz

theorem userPrContrib_sorted (now : Int) (rn u : String) :
    ∀ nodes : List (Option Item),
      List.Pairwise (fun x y : Item => optGe x.updatedAt y.updatedAt = true)
        (nodes.filterMap id) →
      SortedDescBy (fun t => t.item.updatedAt) (userPrContrib now rn u nodes) := by
  intro nodes
  induction nodes with
  | nil => intro _; exact List.Pairwise.nil
  | cons node rest ih =>
    cases node with
    | none =>
      intro h
      exact ih (by simpa using h)
    | some it =>
      intro h
      have h' : List.Pairwise (fun x y : Item => optGe x.updatedAt y.updatedAt = true)
          (it :: rest.filterMap id) := by simpa using h
      rcases List.pairwise_cons.mp h' with ⟨hhead, htail⟩
      rw [userPrContrib]
      apply List.pairwise_append.mpr
      refine ⟨?_, ih htail, ?_⟩
      · apply List.pairwise_of_forall_mem_list
        intro x hx y hy
        show optGe x.item.updatedAt y.item.updatedAt = true
        rw [tagFilter_mem u _ _ x hx, tagFilter_mem u _ _ y hy]
        exact optGe_refl _
      · intro x hx y hy
        show optGe x.item.updatedAt y.item.updatedAt = true
        rcases userPrContrib_mem_key now rn u rest y hy with ⟨z, hz, hk⟩
        rw [tagFilter_mem u _ _ x hx, hk]
        exact hhead z hz

/- Two single-page repositories whose stale issues both belong to the
   same user: the first repository's item is older than the second's. -/

def c6ItemOld : Item :=
  { repository := "", number := 2, title := "old", url := "uo",
    updatedAt := some 100, author := none, assignees := [some ("uma")],
    isDraft := false, reviewDecision := "", reviewRequests := [] }

def c6ItemNew : Item :=
  { repository := "", number := 3, title := "new", url := "un",
    updatedAt := some 200, author := none, assignees := [some ("uma")],
    isDraft := false, reviewDecision := "", reviewRequests := [] }

def c6FetchA : Nat → Except String GqlResp :=
  fun _ => Except.ok
    { hasErrors := false, repo := some { nodes := [some c6ItemOld], hasNextPage := false } }

def c6FetchB : Nat → Except String GqlResp :=
  fun _ => Except.ok
    { hasErrors := false, repo := some { nodes := [some c6ItemNew], hasNextPage := false } }

/-- C6 counterexample: with two tracked repositories each contributing
one stale issue for the same recipient, the recipient's issue list holds
the first repository's older item before the second repository's newer
item — updatedAt 100 before 200 — so the per-recipient issue list is not
sorted by updatedAt descending. -/
theorem bundle_sorting_counterexample :
    ((issuesPhase 10000000 [("RepoA", c6FetchA), ("RepoB", c6FetchB)] 3 emptyUsers)
        ("uma")).issues.map (fun t => t.item.updatedAt) = [some 100, some 200]
    ∧ ¬ SortedDescBy (fun t => t.item.updatedAt)
        ((issuesPhase 10000000 [("RepoA", c6FetchA), ("RepoB", c6FetchB)] 3 emptyUsers)
          ("uma")).issues := by
  have hmapeq : ((issuesPhase 10000000 [("RepoA", c6FetchA), ("RepoB", c6FetchB)] 3 emptyUsers)
      ("uma")).issues.map (fun t => t.item.updatedAt) = [some 100, some 200] := rfl
  refine ⟨hmapeq, ?_⟩
  intro h
  have hPW : List.Pairwise
      (fun x y : TaggedItem => optGe x.item.updatedAt y.item.updatedAt = true)
      ((issuesPhase 10000000 [("RepoA", c6FetchA), ("RepoB", c6FetchB)] 3 emptyUsers)
        ("uma")).issues := h
  have hmap : List.Pairwise (fun a b : Option Int => optGe a b = true)
      (((issuesPhase 10000000 [("RepoA", c6FetchA), ("RepoB", c6FetchB)] 3 emptyUsers)
        ("uma")).issues.map (fun t => t.item.updatedAt)) :=
    List.pairwise_map.mpr hPW
  rw [hmapeq] at hmap
  have h3 := (List.pairwise_cons.mp hmap).1 (some 200) (by simp)
  simp [optGe] at h3

/-- C6 amended: per-recipient lists are in collection order, sorted by
updatedAt descending only within one repository's page stream: page
walks compose by concatenation of their node streams, a recipient's
per-repository contribution is exactly the order-preserving extraction
from that stream, and when the stream is sorted by updatedAt descending
(as the server returns it) so is the recipient's contribution, for the
issue lists and the pull-request lists alike; contributions from
different repositories are concatenated without re-sorting. -/
theorem bundle_per_repo_sorted (now : Int) (rn u : String) (acc : Users)
    (nodes ns1 ns2 : List (Option Item))
    (hsorted : List.Pairwise (fun x y : Item => optGe x.updatedAt y.updatedAt = true)
      (nodes.filterMap id)) :
    (collectIssuePage now rn acc (ns1 ++ ns2) =
      collectIssuePage now rn (collectIssuePage now rn acc ns1) ns2)
    ∧ ((collectIssuePage now rn emptyUsers nodes) u).issues = userIssueContrib now rn u nodes
    ∧ SortedDescBy (fun t => t.item.updatedAt)
        ((collectIssuePage now rn emptyUsers nodes) u).issues
    ∧ (collectPrPage now rn acc (ns1 ++ ns2) =
      collectPrPage now rn (collectPrPage now rn acc ns1) ns2)
    ∧ ((collectPrPage now rn emptyUsers nodes) u).prs = userPrContrib now rn u nodes
    ∧ SortedDescBy (fun t => t.item.updatedAt)
        ((collectPrPage now rn emptyUsers nodes) u).prs := by
  have hiss : ((collectIssuePage now rn emptyUsers nodes) u).issues =
      userIssueContrib now rn u nodes := by
    rw [collectIssuePage_lookup]
    simp [emptyUsers]
  have hpr : ((collectPrPage now rn emptyUsers nodes) u).prs =
      userPrContrib now rn u nodes := by
    rw [collectPrPage_lookup]
    simp [emptyUsers]
  refine ⟨?_, hiss, ?_, ?_, hpr, ?_⟩
  · simp [collectIssuePage, List.foldl_append]
  · rw [hiss]
    exact userIssueContrib_sorted now rn u nodes hsorted
  · simp [collectPrPage, List.foldl_append]
  · rw [hpr]
    exact userPrContrib_sorted now rn u nodes hsorted

/-- C6 witness: the per-repository ordering theorem instantiated at a
single-repository stream holding the newer item before the older one. -/
theorem bundle_per_repo_sorted_witness :
    (collectIssuePage 10000000 ("RepoA") emptyUsers ([some c6ItemNew] ++ [some c6ItemOld]) =
      collectIssuePage 10000000 ("RepoA")
        (collectIssuePage 10000000 ("RepoA") emptyUsers [some c6ItemNew]) [some c6ItemOld])
    ∧ ((collectIssuePage 10000000 ("RepoA") emptyUsers [some c6ItemNew, some c6ItemOld])
        ("uma")).issues = userIssueContrib 10000000 ("RepoA") ("uma") [some c6ItemNew, some c6ItemOld]
    ∧ SortedDescBy (fun t => t.item.updatedAt)
        ((collectIssuePage 10000000 ("RepoA") emptyUsers [some c6ItemNew, some c6ItemOld])
          ("uma")).issues
    ∧ (collectPrPage 10000000 ("RepoA") emptyUsers ([some c6ItemNew] ++ [some c6ItemOld]) =
      collectPrPage 10000000 ("RepoA")
        (collectPrPage 10000000 ("RepoA") emptyUsers [some c6ItemNew]) [some c6ItemOld])
    ∧ ((collectPrPage 10000000 ("RepoA") emptyUsers [some c6ItemNew, some c6ItemOld])
        ("uma")).prs = userPrContrib 10000000 ("RepoA") ("uma") [some c6ItemNew, some c6ItemOld]
    ∧ SortedDescBy (fun t => t.item.updatedAt)
        ((collectPrPage 10000000 ("RepoA") emptyUsers [some c6ItemNew, some c6ItemOld])
          ("uma")).prs :=
  bundle_per_repo_sorted 10000000 ("RepoA") ("uma") emptyUsers
    [some c6ItemNew, some c6ItemOld] [some c6ItemNew] [some c6ItemOld]
    (by simp [optGe, c6ItemNew, c6ItemOld])

/- ------------------------------------------------------------------ -/
/- Delivery (process_reminders, lines 780-881, and
   create_channel_message_content, lines 465-547).  Identity resolution
   (find_discord_user) is an oracle from Discord username to a platform
   user; a platform mention token is the <@id> form the platform
   notifies on.  The member cache real name and the send outcomes are
   oracles as well.  The DM text and image attachments do not influence
   any claim and are abstracted into the DM send outcome. -/

structure DiscordUser where
  id : Nat
  deriving Repr, DecidableEq

def mentionToken (du : DiscordUser) : String :=
  "<@" ++ toString du.id ++ ">"

def pyLen (s : String) : Nat := s.data.length

def pyTake (n : Nat) (s : String) : String := ⟨s.data.take n⟩

/- truncate_message_if_needed (reminder_processor.py, lines 40-44). -/

def truncate_message_if_needed (message : String) (max_length : Nat) : String :=
  if pyLen message ≤ max_length then message
  else pyTake (max_length - 3) message ++ "..."

/- get_reminder_reason_text (reminder_processor.py, lines 116-132). -/

def get_reminder_reason_text (reason item_type : String) : String :=
  if item_type = "issue" then
    if reason = "assigned" then "You are assigned to this issue"
    else if reason = "created" then "You created this issue (no assignees)"
    else "Unknown reason"
  else
    if reason = "draft_creator" then "You created this draft PR"
    else if reason = "approved_creator" then "You created this approved PR that needs merging"
    else if reason = "changes_requested_creator" then "You created this PR with requested changes"
    else if reason = "reviewer" then "You are requested to review this PR"
    else if reason = "awaiting_review_creator" then "You created this PR awaiting review"
    else "Unknown reason"

/- The two message lines rendered per issue (lines 490-506). -/

def issueLines (t : TaggedItem) : List String :=
  let title0 := t.item.title
  let title := if 50 < pyLen title0 then pyTake 47 title0 ++ "..." else title0
  let reason_text := get_reminder_reason_text t.reminder_reason ("issue")
  if t.item.url ≠ "" ∧ t.item.number ≠ 0 then
    ["• [" ++ t.item.repository ++ "#" ++ toString t.item.number ++ "](" ++
      t.item.url ++ ") " ++ title,
     "  *" ++ reason_text ++ "*"]
  else
    ["• " ++ t.item.repository ++ "#" ++ toString t.item.number ++ " " ++ title,
     "  *" ++ reason_text ++ "*"]

/- The status emoji and two message lines rendered per pull request
   (lines 513-541). -/

def prStatusEmoji (t : TaggedItem) : String :=
  if t.item.isDraft then "🚧"
  else if t.item.reviewDecision = "APPROVED" then "✅"
  else if t.item.reviewDecision = "CHANGES_REQUESTED" then "🔄"
  else "👀"

def prLines (t : TaggedItem) : List String :=
  let title0 := t.item.title
  let title := if 50 < pyLen title0 then pyTake 47 title0 ++ "..." else title0
  let reason_text := get_reminder_reason_text t.reminder_reason ("pr")
  if t.item.url ≠ "" ∧ t.item.number ≠ 0 then
    ["• " ++ prStatusEmoji t ++ " [" ++ t.item.repository ++ "#" ++
      toString t.item.number ++ "](" ++ t.item.url ++ ") " ++ title,
     "  *" ++ reason_text ++ "*"]
  else
    ["• " ++ prStatusEmoji t ++ " " ++ t.item.repository ++ "#" ++
      toString t.item.number ++ " " ++ title,
     "  *" ++ reason_text ++ "*"]

/- The message parts below the header (lines 488-546), ending with the
   separator line. -/

def channelBodyParts (issues prs : List TaggedItem) : List String :=
  (if issues ≠ [] then
    ("\n**📝 Stale Issues (" ++ toString issues.length ++ "):**") ::
      ((issues.take 5).flatMap issueLines ++
        (if 5 < issues.length then
          ["• ... and " ++ toString (issues.length - 5) ++ " more issues"]
         else []))
   else []) ++
  (if prs ≠ [] then
    ("\n**🔄 Stale Pull Requests (" ++ toString prs.length ++ "):**") ::
      ((prs.take 5).flatMap prLines ++
        (if 5 < prs.length then
          ["• ... and " ++ toString (prs.length - 5) ++ " more PRs"]
         else []))
   else []) ++
  ["--------------------------------"]

/- "\n".join(message_parts). -/

def joinLines : List String → String
  | [] => ""
  | [x] => x
  | x :: y :: rest => x ++ "\n" ++ joinLines (y :: rest)

/- The header of create_channel_message_content (lines 469-484): mention
   the resolved user when should_mention holds, fall back to the plain
   @username text when resolution fails, show the raw GitHub identity
   when there is no mapping at all. -/

def channelHeader (real_name : Option String) (resolve : String → Option DiscordUser)
    (github_username : String) (discord_username : Option String)
    (should_mention : Bool) (discord_user_obj : Option DiscordUser) : String :=
  let name_display :=
    match real_name with
    | some r => " (" ++ r ++ ")"
    | none => ""
  match discord_username with
  | some dn =>
    if should_mention then
      match discord_user_obj with
      | some du =>
        "🔔 **" ++ mentionToken du ++
          ("**" ++ name_display ++ " (GitHub: @" ++ github_username ++ ")")
      | none =>
        match resolve dn with
        | some du =>
          "🔔 **" ++ mentionToken du ++
            ("**" ++ name_display ++ " (GitHub: @" ++ github_username ++ ")")
        | none =>
          "🔔 **@" ++ dn ++
            ("**" ++ name_display ++ " (GitHub: @" ++ github_username ++ ")")
    else
      "🔔 **" ++ dn ++ ("**" ++ name_display ++ " (GitHub: @" ++ github_username ++ ")")
  | none =>
    "🔔 **GitHub user @" ++ github_username ++
      ("**" ++ name_display ++ " (no Discord mapping)")

def create_channel_message_content (real_name : Option String)
    (resolve : String → Option DiscordUser) (github_username : String)
    (discord_username : Option String) (issues prs : List TaggedItem)
    (should_mention : Bool) (discord_user_obj : Option DiscordUser) : String :=
  joinLines
    (channelHeader real_name resolve github_username discord_username
        should_mention discord_user_obj
      :: channelBodyParts issues prs)

/- Cycle statistics (lines 781-787). -/

structure DeliveryStats where
  dm_success : Nat
  dm_failed : Nat
  channel_sent : Nat
  channel_failed : Nat
  no_mapping : Nat
  deriving Repr, DecidableEq

/- The direct-message phase of the per-recipient loop body
   (lines 796-862): resolve the mapped username; when resolved, attempt
   the DM and count the outcome, creating an update session on success;
   when the mapping exists but no platform user matches, do nothing;
   when there is no mapping, count no_mapping. -/

structure DmOutcome where
  attempted : Bool
  dm_success : Bool
  discord_user : Option DiscordUser
  session_created : Bool
  stats : DeliveryStats
  deriving Repr, DecidableEq

def dmPhase (mapping : Option String) (resolve : String → Option DiscordUser)
    (dmSendOk managerPresent : Bool) (stats : DeliveryStats) : DmOutcome :=
  match mapping with
  | some dn =>
    match resolve dn with
    | some du =>
      if dmSendOk then
        { attempted := true, dm_success := true, discord_user := some du,
          session_created := managerPresent,
          stats := { stats with dm_success := stats.dm_success + 1 } }
      else
        { attempted := true, dm_success := false, discord_user := some du,
          session_created := false,
          stats := { stats with dm_failed := stats.dm_failed + 1 } }
    | none =>
      { attempted := false, dm_success := false, discord_user := none,
        session_created := false, stats := stats }
  | none =>
    { attempted := false, dm_success := false, discord_user := none,
      session_created := false,
      stats := { stats with no_mapping := stats.no_mapping + 1 } }

/- One full iteration of the delivery loop for one recipient
   (lines 789-881, with no target user filter): recipients with an empty
   bundle are skipped; otherwise the DM phase runs and a channel copy is
   always sent with should_mention = not dm_success, counting exactly one
   of channel_sent / channel_failed. -/

structure RecipientOutcome where
  stats : DeliveryStats
  dmAttempted : Bool
  dmSuccess : Bool
  channelContent : Option String
  sessionCreated : Bool
  deriving Repr, DecidableEq

def deliverStep (real_name : Option String) (mapping : Option String)
    (resolve : String → Option DiscordUser)
    (dmSendOk channelSendOk managerPresent : Bool) (github_username : String)
    (issues prs : List TaggedItem) (stats : DeliveryStats) : RecipientOutcome :=
  if issues = [] ∧ prs = [] then
    { stats := stats, dmAttempted := false, dmSuccess := false,
      channelContent := none, sessionCreated := false }
  else
    let p := dmPhase mapping resolve dmSendOk managerPresent stats
    let should_mention := !p.dm_success
    let channel_content :=
      truncate_message_if_needed
        (create_channel_message_content real_name resolve github_username mapping
          issues prs should_mention p.discord_user) 1900
    let stats2 :=
      if channelSendOk then { p.stats with channel_sent := p.stats.channel_sent + 1 }
      else { p.stats with channel_failed := p.stats.channel_failed + 1 }
    { stats := stats2, dmAttempted := p.attempted, dmSuccess := p.dm_success,
      channelContent := some channel_content, sessionCreated := p.session_created }

/- A mention token (or any fixed text) occurring inside a message. -/

def containsToken (s token : String) : Prop :=
  ∃ pre post : List Char, s.data = pre ++ token.data ++ post

theorem string_data_append (s t : String) : (s ++ t).data = s.data ++ t.data := rfl

theorem no_token_of_no_lt (s token : String) (hs : '<' ∉ s.data)
    (htok : token.data.head? = some '<') : ¬ containsToken s token := by
  rintro ⟨pre, post, h⟩
  apply hs
  rw [h]
  cases hd : token.data with
  | nil => rw [hd] at htok; simp at htok
  | cons c tl =>
    rw [hd] at htok
    simp at htok
    subst htok
    simp

theorem mentionToken_head (du : DiscordUser) :
    (mentionToken du).data.head? = some '<' := by
  show ((("<@" ++ toString du.id) ++ ">")).data.head? = some '<'
  rw [string_data_append, string_data_append]
  rfl

theorem no_lt_append (s1 s2 : String) (h1 : '<' ∉ s1.data) (h2 : '<' ∉ s2.data) :
    '<' ∉ (s1 ++ s2).data := by
  intro hm
  rcases List.mem_append.mp (by rwa [string_data_append] at hm) with h | h
  · exact h1 h
  · exact h2 h

theorem lt_not_mem_header (real_name : Option String)
    (resolve : String → Option DiscordUser) (gh dn : String)
    (duo : Option DiscordUser)
    (hdn : '<' ∉ dn.data) (hgh : '<' ∉ gh.data)
    (hrn : ∀ r, real_name = some r → '<' ∉ r.data) :
    '<' ∉ (channelHeader real_name resolve gh (some dn) false duo).data := by
  cases real_name with
  | none =>
    have hh : channelHeader none resolve gh (some dn) false duo =
        ("🔔 **" ++ dn) ++ ((("**" ++ "") ++ " (GitHub: @") ++ gh ++ ")") := rfl
    rw [hh]
    exact no_lt_append _ _ (no_lt_append _ _ (by decide) hdn)
      (no_lt_append _ _
        (no_lt_append _ _
          (no_lt_append _ _ (by decide) (by decide)) (by decide)) hgh
        |> fun hY => no_lt_append _ _ hY (by decide))
  | some r =>
    have hh : channelHeader (some r) resolve gh (some dn) false duo =
        ("🔔 **" ++ dn) ++
          ((("**" ++ ((" (" ++ r) ++ ")")) ++ " (GitHub: @") ++ gh ++ ")") := rfl
    rw [hh]
    have hnd : '<' ∉ ((" (" ++ r) ++ ")").data :=
      no_lt_append _ _ (no_lt_append _ _ (by decide) (hrn r rfl)) (by decide)
    exact no_lt_append _ _ (no_lt_append _ _ (by decide) hdn)
      (no_lt_append _ _
        (no_lt_append _ _
          (no_lt_append _ _ (by decide) hnd) (by decide)) hgh
        |> fun hY => no_lt_append _ _ hY (by decide))

/-- C5: the channel copy is always produced for a recipient with a
non-empty bundle, built with should_mention equal to the negation of the
direct-send success, and it splits into a header plus a body that does
not depend on the mention decision; on direct success the header carries
no mention token for the recipient (given that the usernames and real
name carry no mention-opening character); on direct failure the header
carries the recipient's mention token; when the mapped username resolves
to no platform user the header shows the plain @username text; and with
no mapping at all the header shows the raw GitHub identity. -/
theorem delivery_channel_mention_suppression (real_name : Option String)
    (mapping : Option String) (resolve : String → Option DiscordUser)
    (dmSendOk channelSendOk managerPresent : Bool) (gh : String)
    (issues prs : List TaggedItem) (stats : DeliveryStats)
    (hne : ¬ (issues = [] ∧ prs = [])) :
    ((deliverStep real_name mapping resolve dmSendOk channelSendOk managerPresent
        gh issues prs stats).channelContent
      = some (truncate_message_if_needed
          (create_channel_message_content real_name resolve gh mapping issues prs
            (!(deliverStep real_name mapping resolve dmSendOk channelSendOk managerPresent
                gh issues prs stats).dmSuccess)
            (dmPhase mapping resolve dmSendOk managerPresent stats).discord_user) 1900))
    ∧ (∀ (sm : Bool) (duo : Option DiscordUser),
        create_channel_message_content real_name resolve gh mapping issues prs sm duo
          = joinLines (channelHeader real_name resolve gh mapping sm duo
              :: channelBodyParts issues prs))
    ∧ (∀ dn du, mapping = some dn → resolve dn = some du → dmSendOk = true →
        (deliverStep real_name mapping resolve dmSendOk channelSendOk managerPresent
            gh issues prs stats).dmSuccess = true
        ∧ ('<' ∉ dn.data → '<' ∉ gh.data → (∀ r, real_name = some r → '<' ∉ r.data) →
            ¬ containsToken (channelHeader real_name resolve gh (some dn) false (some du))
              (mentionToken du)))
    ∧ (∀ dn du, mapping = some dn → resolve dn = some du → dmSendOk = false →
        (deliverStep real_name mapping resolve dmSendOk channelSendOk managerPresent
            gh issues prs stats).dmSuccess = false
        ∧ containsToken (channelHeader real_name resolve gh (some dn) true (some du))
            (mentionToken du))
    ∧ (∀ dn, mapping = some dn → resolve dn = none →
        (deliverStep real_name mapping resolve dmSendOk channelSendOk managerPresent
            gh issues prs stats).dmSuccess = false
        ∧ containsToken (channelHeader real_name resolve gh (some dn) true none)
            ("@" ++ dn))
    ∧ (mapping = none →
        containsToken (channelHeader real_name resolve gh none true none) ("@" ++ gh)) := by
  refine ⟨?_, ?_, ?_, ?_, ?_, ?_⟩
  · simp [deliverStep, hne]
  · intro sm duo
    rfl
  · intro dn du hm hr hok
    constructor
    · simp [deliverStep, hne, dmPhase, hm, hr, hok]
    · intro hdn hgh hrn
      exact no_token_of_no_lt _ _
        (lt_not_mem_header real_name resolve gh dn (some du) hdn hgh hrn)
        (mentionToken_head du)
  · intro dn du hm hr hok
    constructor
    · simp [deliverStep, hne, dmPhase, hm, hr, hok]
    · refine ⟨("🔔 **").data,
        ("**" ++ (match real_name with
          | some r => " (" ++ r ++ ")"
          | none => "") ++ " (GitHub: @" ++ gh ++ ")").data, ?_⟩
      simp [channelHeader, string_data_append]
  · intro dn hm hr
    constructor
    · simp [deliverStep, hne, dmPhase, hm, hr]
    · refine ⟨("🔔 **").data,
        ("**" ++ (match real_name with
          | some r => " (" ++ r ++ ")"
          | none => "") ++ " (GitHub: @" ++ gh ++ ")").data, ?_⟩
      simp [channelHeader, hr, string_data_append]
  · intro hm
    refine ⟨("🔔 **GitHub user ").data,
      ("**" ++ (match real_name with
        | some r => " (" ++ r ++ ")"
        | none => "") ++ " (no Discord mapping)").data, ?_⟩
    simp [channelHeader, string_data_append]

/- Concrete delivery scenario: one stale issue for a recipient whose
   mapped username resolves to user 7, with the direct send failing. -/

def c5Item : Item :=
  { repository := "Mantis", number := 4, title := "fix", url := "uf",
    updatedAt := some 50, author := none, assignees := [some ("dgh")],
    isDraft := false, reviewDecision := "", reviewRequests := [] }

def c5Tag : TaggedItem := { item := c5Item, reminder_reason := "assigned" }

def c5Stats0 : DeliveryStats :=
  { dm_success := 0, dm_failed := 0, channel_sent := 0, channel_failed := 0,
    no_mapping := 0 }

def c5Resolve : String → Option DiscordUser :=
  fun s => if s = "dave" then some { id := 7 } else none

def c5Deliver : RecipientOutcome :=
  deliverStep none (some ("dave")) c5Resolve false true true ("dgh") [c5Tag] [] c5Stats0

def c5Dm : DmOutcome := dmPhase (some ("dave")) c5Resolve false true c5Stats0

/-- C5 witness: the mention-suppression theorem instantiated at the
concrete failed-direct-send scenario. -/
theorem delivery_channel_mention_suppression_witness :
    (c5Deliver.channelContent
      = some (truncate_message_if_needed
          (create_channel_message_content none c5Resolve ("dgh") (some ("dave"))
            [c5Tag] [] (!c5Deliver.dmSuccess) c5Dm.discord_user) 1900))
    ∧ (∀ (sm : Bool) (duo : Option DiscordUser),
        create_channel_message_content none c5Resolve ("dgh") (some ("dave"))
            [c5Tag] [] sm duo
          = joinLines (channelHeader none c5Resolve ("dgh") (some ("dave")) sm duo
              :: channelBodyParts [c5Tag] []))
    ∧ (∀ dn du, (some ("dave") : Option String) = some dn → c5Resolve dn = some du →
        (false : Bool) = true →
        c5Deliver.dmSuccess = true
        ∧ ('<' ∉ dn.data → '<' ∉ ("dgh").data →
            (∀ r, (none : Option String) = some r → '<' ∉ r.data) →
            ¬ containsToken (channelHeader none c5Resolve ("dgh") (some dn) false (some du))
              (mentionToken du)))
    ∧ (∀ dn du, (some ("dave") : Option String) = some dn → c5Resolve dn = some du →
        (false : Bool) = false →
        c5Deliver.dmSuccess = false
        ∧ containsToken (channelHeader none c5Resolve ("dgh") (some dn) true (some du))
            (mentionToken du))
    ∧ (∀ dn, (some ("dave") : Option String) = some dn → c5Resolve dn = none →
        c5Deliver.dmSuccess = false
        ∧ containsToken (channelHeader none c5Resolve ("dgh") (some dn) true none)
            ("@" ++ dn))
    ∧ ((some ("dave") : Option String) = none →
        containsToken (channelHeader none c5Resolve ("dgh") none true none)
          ("@" ++ "dgh")) :=
  delivery_channel_mention_suppression none (some ("dave")) c5Resolve false true true
    ("dgh") [c5Tag] [] c5Stats0 (by simp)

theorem dmPhase_channel_counters (mapping : Option String)
    (resolve : String → Option DiscordUser) (dmSendOk managerPresent : Bool)
    (stats : DeliveryStats) :
    (dmPhase mapping resolve dmSendOk managerPresent stats).stats.channel_sent
        = stats.channel_sent
    ∧ (dmPhase mapping resolve dmSendOk managerPresent stats).stats.channel_failed
        = stats.channel_failed := by
  rcases mapping with _ | dn
  · simp [dmPhase]
  · rcases hr : resolve dn with _ | du
    · simp [dmPhase, hr]
    · cases dmSendOk <;> simp [dmPhase, hr]

/-- C10: for a recipient with a non-empty bundle exactly one of
channel_sent / channel_failed is incremented, but when the recipient's
mapped chat username resolves to no visible platform user, none of
dm_success, dm_failed or no_mapping is incremented and no direct attempt
is made — the five counters do not partition recipients. -/
theorem delivery_stats_channel_vs_dm (real_name : Option String)
    (mapping : Option String) (resolve : String → Option DiscordUser)
    (dmSendOk channelSendOk managerPresent : Bool) (gh : String)
    (issues prs : List TaggedItem) (stats : DeliveryStats)
    (hne : ¬ (issues = [] ∧ prs = [])) :
    (channelSendOk = true →
      (deliverStep real_name mapping resolve dmSendOk channelSendOk managerPresent
          gh issues prs stats).stats.channel_sent = stats.channel_sent + 1
      ∧ (deliverStep real_name mapping resolve dmSendOk channelSendOk managerPresent
          gh issues prs stats).stats.channel_failed = stats.channel_failed)
    ∧ (channelSendOk = false →
      (deliverStep real_name mapping resolve dmSendOk channelSendOk managerPresent
          gh issues prs stats).stats.channel_failed = stats.channel_failed + 1
      ∧ (deliverStep real_name mapping resolve dmSendOk channelSendOk managerPresent
          gh issues prs stats).stats.channel_sent = stats.channel_sent)
    ∧ (∀ dn, mapping = some dn → resolve dn = none →
        (deliverStep real_name mapping resolve dmSendOk channelSendOk managerPresent
            gh issues prs stats).dmAttempted = false
        ∧ (deliverStep real_name mapping resolve dmSendOk channelSendOk managerPresent
            gh issues prs stats).stats.dm_success = stats.dm_success
        ∧ (deliverStep real_name mapping resolve dmSendOk channelSendOk managerPresent
            gh issues prs stats).stats.dm_failed = stats.dm_failed
        ∧ (deliverStep real_name mapping resolve dmSendOk channelSendOk managerPresent
            gh issues prs stats).stats.no_mapping = stats.no_mapping) := by
  have hch := dmPhase_channel_counters mapping resolve dmSendOk managerPresent stats
  refine ⟨?_, ?_, ?_⟩
  · intro hc
    constructor <;> simp [deliverStep, hne, hc, hch.1, hch.2]
  · intro hc
    constructor <;> simp [deliverStep, hne, hc, hch.1, hch.2]
  · intro dn hm hr
    cases channelSendOk <;>
      simp [deliverStep, hne, dmPhase, hm, hr]

/- The same scenario with an unresolvable mapped username. -/

def c10Deliver : RecipientOutcome :=
  deliverStep none (some ("ghost")) c5Resolve true true true ("dgh") [c5Tag] [] c5Stats0

/-- C10 witness: the counter theorem instantiated at a recipient whose
mapped username "ghost" resolves to no platform user, with the channel
send succeeding. -/
theorem delivery_stats_channel_vs_dm_witness :
    ((true : Bool) = true →
      c10Deliver.stats.channel_sent = c5Stats0.channel_sent + 1
      ∧ c10Deliver.stats.channel_failed = c5Stats0.channel_failed)
    ∧ ((true : Bool) = false →
      c10Deliver.stats.channel_failed = c5Stats0.channel_failed + 1
      ∧ c10Deliver.stats.channel_sent = c5Stats0.channel_sent)
    ∧ (∀ dn, (some ("ghost") : Option String) = some dn → c5Resolve dn = none →
        c10Deliver.dmAttempted = false
        ∧ c10Deliver.stats.dm_success = c5Stats0.dm_success
        ∧ c10Deliver.stats.dm_failed = c5Stats0.dm_failed
        ∧ c10Deliver.stats.no_mapping = c5Stats0.no_mapping) :=
  delivery_stats_channel_vs_dm none (some ("ghost")) c5Resolve true true true
    ("dgh") [c5Tag] [] c5Stats0 (by simp)

end Mantis
